import Mathlib

/-!
Shallow embedding of the real-time location tracker's core
(`src/services/websocket.service.js` and the `POST /api/locations`
route), together with theorems checking the specification's claims
about geofence evaluation, the subscription registry, broadcasting
and ingestion error handling.
-/

set_option autoImplicit false

namespace LocationTracker

/-! ## Subscription registry

`WebSocketService.connections` is a JS `Map<string, WebSocket>`.
Connections are identified by their handle (reference identity),
modelled as a natural number.  The registry is an insertion-ordered
association list with unique keys, exactly the observable behaviour
of a JS `Map`. -/

abbrev Conn := Nat

abbrev Registry := List (String × Conn)

/-- `Map.get(k)`: the value stored at the first (only) entry with key `k`. -/
def mapGet : Registry → String → Option Conn
  | [], _ => none
  | e :: t, k => if e.1 == k then some e.2 else mapGet t k

/-- `Map.set(k, v)`: replace the entry with key `k` in place, or append. -/
def mapSet : Registry → String → Conn → Registry
  | [], k, v => [(k, v)]
  | e :: t, k, v => if e.1 == k then (k, v) :: t else e :: mapSet t k v

/-- The `ws.on('close')` handler: scan all entries and delete every one
whose stored connection is (reference-)equal to `ws`. -/
def mapDeleteConn (r : Registry) (ws : Conn) : Registry :=
  r.filter (fun e => !(e.2 == ws))

/-! ## Device data model (`device.model.js`) -/

/-- One entry of `deviceSchema.geofences`. -/
structure Geofence where
  name : String
  radius : ℝ
  center : ℝ × ℝ

/-- `deviceSchema.lastLocation` (the GeoJSON `type: 'Point'` tag is fixed
and omitted; coordinates are the `[longitude, latitude]` pair). -/
structure LastLocation where
  coordinates : ℝ × ℝ
  timestamp : Nat

/-- The slice of a `Device` document that the ingestion and broadcast
paths read and write. -/
structure Device where
  deviceId : String
  lastLocation : Option LastLocation
  geofences : List Geofence

/-! ## Outbound WebSocket frames -/

/-- The JSON frames the server sends (`websocket.service.js`). -/
inductive WsOut where
  | subscribed (deviceId : String)
  | error (message : String)
  | locationUpdate (deviceId : String) (coordinates : List ℝ)
      (altitude speed accuracy : Option ℝ) (timestamp : Nat)
  | geofenceEvent (deviceId : String) (eventType : String) (geofence : Geofence)

def isGeofenceMsg : WsOut → Bool
  | .geofenceEvent _ _ _ => true
  | _ => false

/-- `broadcastLocation`: look the device up in the registry; if a
connection is stored and its `readyState` is `1` (OPEN), send a
`location_update` frame on it; otherwise do nothing.  The result records
which connection (if any) the frame was sent on. -/
def broadcastLocation (r : Registry) (readyState : Conn → Nat) (deviceId : String)
    (coordinates : List ℝ) (altitude speed accuracy : Option ℝ) (timestamp : Nat) :
    Option (Conn × WsOut) :=
  match mapGet r deviceId with
  | some connection =>
      if readyState connection = 1 then
        some (connection, .locationUpdate deviceId coordinates altitude speed accuracy timestamp)
      else none
  | none => none

/-- `broadcastGeofenceEvent`: same lookup/drop policy, `geofence_event` frame. -/
def broadcastGeofenceEvent (r : Registry) (readyState : Conn → Nat) (deviceId : String)
    (eventType : String) (geofence : Geofence) : Option (Conn × WsOut) :=
  match mapGet r deviceId with
  | some connection =>
      if readyState connection = 1 then
        some (connection, .geofenceEvent deviceId eventType geofence)
      else none
  | none => none

/-! ## Inbound WebSocket message handler -/

/-- An inbound text frame as seen by the `ws.on('message')` handler:
either `JSON.parse` throws (`malformed`), or it yields an object with a
`type` field and an optional (present-and-truthy) `deviceId` field. -/
inductive InFrame where
  | malformed
  | parsed (ty : String) (deviceId : Option String)

/-- What one run of the message handler produced: the frames sent back
on this connection, the registry afterwards, and whether the handler
left the connection open (it always does — it never calls `close`). -/
structure HandlerResult where
  responses : List WsOut
  registry : Registry
  connectionOpen : Bool

/-- The `ws.on('message')` handler of `WebSocketService.setupWebSocket`.
`deviceExists` is the `Device.findOne({ deviceId })` lookup. -/
def handleMessage (r : Registry) (ws : Conn) (deviceExists : String → Bool) :
    InFrame → HandlerResult
  | .malformed => ⟨[.error "Invalid message format"], r, true⟩
  | .parsed ty did =>
    if ty = "subscribe" then
      match did with
      | some d =>
          if deviceExists d then ⟨[.subscribed d], mapSet r d ws, true⟩
          else ⟨[.error "Device not found"], r, true⟩
      | none => ⟨[], r, true⟩
    else ⟨[], r, true⟩

/-! ## Registry lemmas -/

lemma mapGet_mapSet_self (r : Registry) (k : String) (v : Conn) :
    mapGet (mapSet r k v) k = some v := by
  induction r with
  | nil => simp [mapSet, mapGet]
  | cons e t ih =>
      by_cases h : (e.1 == k) = true
      · simp [mapSet, mapGet, h]
      · rw [Bool.not_eq_true] at h
        simp [mapSet, mapGet, h, ih]

lemma mem_mapDeleteConn_iff (r : Registry) (ws : Conn) (e : String × Conn) :
    e ∈ mapDeleteConn r ws ↔ e ∈ r ∧ e.2 ≠ ws := by
  simp [mapDeleteConn, List.mem_filter]

lemma mapDeleteConn_idem (r : Registry) (ws : Conn) :
    mapDeleteConn (mapDeleteConn r ws) ws = mapDeleteConn r ws := by
  apply List.filter_eq_self.mpr
  intro e he
  rcases (mem_mapDeleteConn_iff r ws e).mp he with ⟨_, hne⟩
  simpa using hne

lemma mapGet_mapDeleteConn_of_ne (r : Registry) (ws : Conn) (d : String) (c : Conn)
    (hc : c ≠ ws) (hg : mapGet r d = some c) :
    mapGet (mapDeleteConn r ws) d = some c := by
  induction r with
  | nil => simp [mapGet] at hg
  | cons e t ih =>
      simp only [mapGet] at hg
      by_cases h : (e.1 == d) = true
      · rw [if_pos h] at hg
        have hev : e.2 = c := Option.some.inj hg
        have hkeep : (e.2 == ws) = false := by simp [hev, hc]
        simp [mapDeleteConn, List.filter_cons, hkeep, mapGet, h, hev, hc]
      · rw [if_neg h] at hg
        have hrec := ih hg
        by_cases hk : (e.2 == ws) = true
        · simpa [mapDeleteConn, List.filter_cons, hk] using hrec
        · simp only [Bool.not_eq_true] at hk
          simpa [mapDeleteConn, List.filter_cons, hk, mapGet, h] using hrec

/-- With unique keys (true of any JS `Map`), looking up `d` finds the one
entry with key `d`, so every entry of `r` keyed `d` stores that value. -/
lemma mapGet_unique (r : Registry) (d : String) (c : Conn)
    (hnd : (r.map Prod.fst).Nodup) (hg : mapGet r d = some c) :
    ∀ e ∈ r, e.1 = d → e.2 = c := by
  induction r with
  | nil => intro e he; simp at he
  | cons a t ih =>
      intro e he hed
      by_cases h : (a.1 == d) = true
      · simp only [mapGet, if_pos h] at hg
        have ha2 : a.2 = c := Option.some.inj hg
        have had : a.1 = d := by simpa using h
        rcases List.mem_cons.mp he with rfl | het
        · exact ha2
        · exfalso
          have hmem : d ∈ t.map Prod.fst := by
            rw [← hed]; exact List.mem_map.mpr ⟨e, het, rfl⟩
          rw [List.map_cons, List.nodup_cons] at hnd
          exact hnd.1 (by rw [had]; exact hmem)
      · simp only [mapGet, if_neg h] at hg
        rw [List.map_cons, List.nodup_cons] at hnd
        rcases List.mem_cons.mp he with rfl | het
        · exact absurd (by simp [hed]) h
        · exact ih hnd.2 hg e het hed

lemma mapGet_eq_none_of_all (l : Registry) (d : String)
    (h : ∀ e ∈ l, (e.1 == d) = false) : mapGet l d = none := by
  induction l with
  | nil => rfl
  | cons a t ih =>
      rw [mapGet, if_neg (by simp [h a (List.mem_cons_self a t)])]
      exact ih (fun e he => h e (List.mem_cons_of_mem a he))

lemma mapGet_mapDeleteConn_eq_none (r : Registry) (ws : Conn) (d : String)
    (hnd : (r.map Prod.fst).Nodup) (hg : mapGet r d = some ws) :
    mapGet (mapDeleteConn r ws) d = none := by
  have hall : ∀ e ∈ r, e.1 = d → e.2 = ws := mapGet_unique r d ws hnd hg
  apply mapGet_eq_none_of_all
  intro e he
  rcases (mem_mapDeleteConn_iff r ws e).mp he with ⟨her, hne⟩
  by_cases h : e.1 = d
  · exact absurd (hall e her h) hne
  · simp [h]

/-! ## Great-circle distance (`calculateDistance` in the locations route)

The JS code computes with IEEE doubles; we model it over the real
numbers, with `Math.atan2` transcribed by its mathematical definition. -/

noncomputable section

/-- `Math.atan2(y, x)`. -/
def atan2 (y x : ℝ) : ℝ :=
  if 0 < x then Real.arctan (y / x)
  else if x < 0 then
    (if 0 ≤ y then Real.arctan (y / x) + Real.pi else Real.arctan (y / x) - Real.pi)
  else if 0 < y then Real.pi / 2
  else if y < 0 then -(Real.pi / 2)
  else 0

/-- The intermediate `a` of the haversine formula, exactly as computed in
`calculateDistance` (points are `(longitude, latitude)` pairs in degrees). -/
def haversineA (point1 point2 : ℝ × ℝ) : ℝ :=
  Real.sin ((point2.2 - point1.2) * Real.pi / 180 / 2)
      * Real.sin ((point2.2 - point1.2) * Real.pi / 180 / 2)
    + Real.cos (point1.2 * Real.pi / 180) * Real.cos (point2.2 * Real.pi / 180)
      * (Real.sin ((point2.1 - point1.1) * Real.pi / 180 / 2)
          * Real.sin ((point2.1 - point1.1) * Real.pi / 180 / 2))

/-- `calculateDistance(point1, point2)`: haversine great-circle distance in
meters with Earth radius `R = 6371e3`. -/
def calculateDistance (point1 point2 : ℝ × ℝ) : ℝ :=
  6371000 * (2 * atan2 (Real.sqrt (haversineA point1 point2))
                       (Real.sqrt (1 - haversineA point1 point2)))

end

lemma haversineA_comm (p1 p2 : ℝ × ℝ) : haversineA p1 p2 = haversineA p2 p1 := by
  unfold haversineA
  rw [show (p1.2 - p2.2) * Real.pi / 180 / 2 = -((p2.2 - p1.2) * Real.pi / 180 / 2) by ring,
      show (p1.1 - p2.1) * Real.pi / 180 / 2 = -((p2.1 - p1.1) * Real.pi / 180 / 2) by ring,
      Real.sin_neg, Real.sin_neg]
  ring

lemma haversineA_self (p : ℝ × ℝ) : haversineA p p = 0 := by
  simp [haversineA]

lemma atan2_zero_one : atan2 0 1 = 0 := by
  rw [atan2, if_pos (by norm_num : (0:ℝ) < 1)]
  simp

lemma atan2_one_zero : atan2 1 0 = Real.pi / 2 := by
  rw [atan2, if_neg (by norm_num), if_neg (by norm_num), if_pos (by norm_num : (0:ℝ) < 1)]

lemma calculateDistance_comm (p1 p2 : ℝ × ℝ) :
    calculateDistance p1 p2 = calculateDistance p2 p1 := by
  unfold calculateDistance
  rw [haversineA_comm]

lemma calculateDistance_self (p : ℝ × ℝ) : calculateDistance p p = 0 := by
  unfold calculateDistance
  rw [haversineA_self]
  norm_num [atan2_zero_one]

/-- The `a` value for the pair used in the C1 counterexample: from
`(180, 0)` to `(0, 0)` the half-longitude difference is `-π/2`, so `a = 1`. -/
lemma haversineA_antimeridian : haversineA ((180 : ℝ), 0) ((0 : ℝ), 0) = 1 := by
  unfold haversineA
  norm_num
  rw [show (-(180 * Real.pi) : ℝ) / 180 / 2 = -(Real.pi / 2) by ring, Real.sin_neg,
      Real.sin_pi_div_two]
  norm_num

lemma calculateDistance_antimeridian :
    calculateDistance ((180 : ℝ), 0) ((0 : ℝ), 0) = 6371000 * Real.pi := by
  unfold calculateDistance
  rw [haversineA_antimeridian]
  norm_num [atan2_one_zero]
  ring

lemma calculateDistance_antimeridian_gt :
    ¬ calculateDistance ((180 : ℝ), 0) ((0 : ℝ), 0) ≤ 100000 := by
  rw [calculateDistance_antimeridian]
  nlinarith [Real.pi_gt_three]

/-! ## Geofence loop and ingestion pipeline (`POST /api/locations`) -/

/-- A geofence transition as the spec describes it (§4.2). -/
inductive Transition where
  | enter (geofence : Geofence)
  | exit (geofence : Geofence)

noncomputable section

/-- One iteration of the route's `for (const geofence of req.device.geofences)`
loop, as executed on `device` (the route runs it on the device record *after*
`lastLocation` has been overwritten with the new fix).  Returns the
`geofence_event` frame handed to `broadcastGeofenceEvent`, if any. -/
def eventFor (device : Device) (coordinates : ℝ × ℝ) (geofence : Geofence) : Option WsOut :=
  let distance := calculateDistance coordinates geofence.center
  let wasInside : Bool :=
    match device.lastLocation with
    | some l => decide (calculateDistance l.coordinates geofence.center ≤ geofence.radius)
    | none => false
  let isInside : Bool := decide (distance ≤ geofence.radius)
  if !wasInside && isInside then some (.geofenceEvent device.deviceId "enter" geofence)
  else if wasInside && !isInside then some (.geofenceEvent device.deviceId "exit" geofence)
  else none

/-- The route's geofence check block:
`if (req.device.geofences && req.device.geofences.length > 0) { for ... }`. -/
def geofenceEvents (device : Device) (coordinates : ℝ × ℝ) : List WsOut :=
  if device.geofences.length > 0 then
    device.geofences.filterMap (eventFor device coordinates)
  else []

/-- Following the spec's words (§4.2 GeofenceEvaluator.evaluate): for each
geofence compute `wasInside` from the *previous* position (`false` if none)
and `isInside` from the *new* position; emit `Enter` iff `!wasInside &&
isInside`, `Exit` iff `wasInside && !isInside`, nothing otherwise. -/
def evaluateSpec (previousPosition : Option (ℝ × ℝ)) (newPosition : ℝ × ℝ)
    (geofences : List Geofence) : List Transition :=
  geofences.filterMap (fun geofence =>
    let wasInside : Bool :=
      match previousPosition with
      | some p => decide (calculateDistance p geofence.center ≤ geofence.radius)
      | none => false
    let isInside : Bool :=
      decide (calculateDistance newPosition geofence.center ≤ geofence.radius)
    if !wasInside && isInside then some (Transition.enter geofence)
    else if wasInside && !isInside then some (Transition.exit geofence)
    else none)

/-- The JSON body of `POST /api/locations` (after authentication):
`coordinates = none` models an absent or non-array value. -/
structure LocationReq where
  coordinates : Option (List ℝ)
  altitude : Option ℝ
  speed : Option ℝ
  accuracy : Option ℝ

/-- Which error the route hands to `next(error)`, if any. -/
inductive PipeError where
  | invalidCoordinates
  | locationSaveFailed
  | deviceSaveFailed

/-- Observable outcome of one run of the route handler. -/
structure Outcome where
  locationSaved : Bool
  savedDevice : Option Device
  broadcasts : List WsOut
  error : Option PipeError

/-- The `router.post('/')` handler: validate the coordinates array, save the
`Location` record, overwrite `device.lastLocation` with the new fix and save
the device, call `broadcastLocation`, then run the geofence loop (on the
already-updated device), calling `broadcastGeofenceEvent` for each
transition.  `locationSaveOk` / `deviceSaveOk` say whether the two `save()`
calls succeed; a failed `await` throws into the `catch`, aborting the rest.
`broadcasts` records the frames handed to the broadcast functions, in call
order. -/
def postLocation (device : Device) (req : LocationReq) (now : Nat)
    (locationSaveOk deviceSaveOk : Bool) : Outcome :=
  match req.coordinates with
  | none => ⟨false, none, [], some .invalidCoordinates⟩
  | some coordinates =>
    if coordinates.length ≠ 2 then ⟨false, none, [], some .invalidCoordinates⟩
    else if !locationSaveOk then ⟨false, none, [], some .locationSaveFailed⟩
    else
      let point : ℝ × ℝ := (coordinates.getD 0 0, coordinates.getD 1 0)
      let device' : Device := { device with lastLocation := some ⟨point, now⟩ }
      if !deviceSaveOk then ⟨true, none, [], some .deviceSaveFailed⟩
      else
        ⟨true, some device',
          WsOut.locationUpdate device.deviceId coordinates
              req.altitude req.speed req.accuracy now
            :: geofenceEvents device' point,
          none⟩

end

/-- The route's coordinate validation test, as written:
`!(!coordinates || !Array.isArray(coordinates) || coordinates.length !== 2)`. -/
def validCoords (req : LocationReq) : Bool :=
  match req.coordinates with
  | none => false
  | some l => l.length == 2

/-! ## Pipeline lemmas -/

/-- On the updated device the previous-position lookup reads the *new*
coordinates, so `wasInside` and `isInside` coincide and no transition is
ever emitted. -/
lemma eventFor_updated (device : Device) (c : ℝ × ℝ) (t : Nat) (g : Geofence) :
    eventFor { device with lastLocation := some ⟨c, t⟩ } c g = none := by
  unfold eventFor
  cases h : decide (calculateDistance c g.center ≤ g.radius) <;> simp [h]

lemma geofenceEvents_updated (device : Device) (c : ℝ × ℝ) (t : Nat) :
    geofenceEvents { device with lastLocation := some ⟨c, t⟩ } c = [] := by
  unfold geofenceEvents
  split
  · exact List.filterMap_eq_nil_iff.mpr fun g _ => eventFor_updated device c t g
  · rfl

/-! ## Concrete fixtures -/

/-- A 100 km geofence centred on the origin. -/
def gZone : Geofence := ⟨"zone", 100000, ((0 : ℝ), 0)⟩

def devC1 : Device := ⟨"dev-1", some ⟨((0 : ℝ), 0), 0⟩, [gZone]⟩

def reqC1 : LocationReq := ⟨some [180, 0], none, none, none⟩

def devC2 : Device := ⟨"dev-2", none, [gZone]⟩

def reqC2 : LocationReq := ⟨some [0, 0], none, none, none⟩

def devC3 : Device := ⟨"dev-3", none, []⟩

def devW : Device := ⟨"dev-w", none, [gZone]⟩

def reqW : LocationReq := ⟨some [1, 2], none, none, none⟩

/-! ## Claim theorems -/

/-- C1: contrary to the claim, the route never emits any geofence event:
`device.lastLocation` is overwritten with the new fix before the geofence
loop runs, so `wasInside` is computed from the *new* position and always
equals `isInside`.  Concretely, for a device previously at the centre of a
100 km geofence whose new fix is on the antimeridian (far outside), the
spec's evaluator mandates exactly one Exit, yet the accepted request
broadcasts no geofence event at all. -/
theorem geofence_exit_never_emitted :
    evaluateSpec (some ((0 : ℝ), 0)) ((180 : ℝ), 0) [gZone] = [Transition.exit gZone]
    ∧ (postLocation devC1 reqC1 0 true true).error = none
    ∧ List.filter isGeofenceMsg (postLocation devC1 reqC1 0 true true).broadcasts = [] := by
  refine ⟨?_, rfl, ?_⟩
  · have hlt : (100000 : ℝ) < calculateDistance ((180 : ℝ), (0 : ℝ)) (0 : ℝ × ℝ) := by
      rw [← Prod.mk_zero_zero]
      exact lt_of_not_le calculateDistance_antimeridian_gt
    have hzero : calculateDistance (0 : ℝ × ℝ) (0 : ℝ × ℝ) = 0 := calculateDistance_self 0
    norm_num [evaluateSpec, gZone, List.filterMap_cons, hzero, hlt, not_le.mpr hlt]
  · have hb : (postLocation devC1 reqC1 0 true true).broadcasts
        = WsOut.locationUpdate "dev-1" [180, 0] none none none 0
          :: geofenceEvents { devC1 with lastLocation := some ⟨((180 : ℝ), 0), 0⟩ }
               ((180 : ℝ), 0) := rfl
    rw [hb, geofenceEvents_updated]
    rfl

/-- C2: contrary to the claim, a device with no previous stored position
whose first fix lies inside a configured geofence gets no Enter event from
the route: the spec's evaluator mandates exactly one Enter, but because
`lastLocation` is overwritten before the loop, `wasInside` is already true
and the route broadcasts no geofence event. -/
theorem first_fix_enter_never_emitted :
    evaluateSpec none ((0 : ℝ), 0) [gZone] = [Transition.enter gZone]
    ∧ (postLocation devC2 reqC2 0 true true).error = none
    ∧ List.filter isGeofenceMsg (postLocation devC2 reqC2 0 true true).broadcasts = [] := by
  refine ⟨?_, rfl, ?_⟩
  · have hzero : calculateDistance (0 : ℝ × ℝ) (0 : ℝ × ℝ) = 0 := calculateDistance_self 0
    norm_num [evaluateSpec, gZone, List.filterMap_cons, hzero]
  · have hb : (postLocation devC2 reqC2 0 true true).broadcasts
        = WsOut.locationUpdate "dev-2" [0, 0] none none none 0
          :: geofenceEvents { devC2 with lastLocation := some ⟨((0 : ℝ), 0), 0⟩ }
               ((0 : ℝ), 0) := rfl
    rw [hb, geofenceEvents_updated]
    rfl

/-- C3 counterexample: a fix whose coordinates `[500, 500]` are far outside
the legal longitude/latitude ranges is accepted by the route (no error),
because the validation only checks for an array of length two. -/
theorem out_of_range_fix_accepted :
    (postLocation devC3 ⟨some [500, 500], none, none, none⟩ 0 true true).error = none
    ∧ ¬ ((500 : ℝ) ≤ 180) ∧ ¬ ((500 : ℝ) ≤ 90) := by
  refine ⟨rfl, by norm_num, by norm_num⟩

/-- C3 amended: the route rejects a fix with `InvalidCoordinates` — with no
persistence, no device write and no broadcast — exactly when the
`coordinates` field is absent, not an array, or not of length two; element
finiteness and the longitude/latitude ranges are never checked. -/
theorem coordinate_validation_shape (device : Device) (req : LocationReq) (now : Nat)
    (ls ds : Bool) :
    ((postLocation device req now ls ds).error = some PipeError.invalidCoordinates
      ∧ (postLocation device req now ls ds).locationSaved = false
      ∧ (postLocation device req now ls ds).savedDevice = none
      ∧ (postLocation device req now ls ds).broadcasts = [])
    ↔ validCoords req = false := by
  cases hc : req.coordinates with
  | none => simp [postLocation, validCoords, hc]
  | some l =>
      by_cases hl : l.length = 2
      · cases ls <;> cases ds <;> simp [postLocation, validCoords, hc, hl]
      · simp [postLocation, validCoords, hc, hl]

theorem coordinate_validation_shape_witness :
    (postLocation devC3 ⟨none, none, none, none⟩ 0 true true).error
      = some PipeError.invalidCoordinates :=
  ((coordinate_validation_shape devC3 ⟨none, none, none, none⟩ 0 true true).mpr rfl).1

/-- C4 counterexample: a parseable but schema-violating frame (type
`"ping"`, no `deviceId`) gets *no* reply at all — the claim that every
schema-violating frame is answered with an `error` frame is false; only
unparseable frames are. -/
theorem schema_violating_frame_ignored :
    (handleMessage [] 0 (fun _ => false) (InFrame.parsed "ping" none)).responses = []
    ∧ (handleMessage [] 0 (fun _ => false) (InFrame.parsed "ping" none)).connectionOpen = true
    ∧ (handleMessage [] 0 (fun _ => false) (InFrame.parsed "ping" none)).registry = [] := by
  refine ⟨?_, ?_, ?_⟩ <;> simp [handleMessage]

/-- C4 amended: an unparseable frame is answered with an
`{type:'error', message:'Invalid message format'}` frame, while a parseable
frame that is not a well-formed subscribe message (wrong `type`, or missing
`deviceId`) is silently ignored; in both cases the connection stays open and
the registry is unchanged. -/
theorem malformed_and_unknown_frames (r : Registry) (ws : Conn) (dex : String → Bool) :
    handleMessage r ws dex InFrame.malformed
        = ⟨[WsOut.error "Invalid message format"], r, true⟩
    ∧ ∀ ty did, (ty ≠ "subscribe" ∨ did = none) →
        handleMessage r ws dex (InFrame.parsed ty did) = ⟨[], r, true⟩ := by
  refine ⟨rfl, ?_⟩
  intro ty did h
  rcases h with hty | hdid
  · simp [handleMessage, hty]
  · subst hdid
    by_cases hty : ty = "subscribe" <;> simp [handleMessage, hty]

theorem malformed_and_unknown_frames_witness :
    handleMessage [] 0 (fun _ => false) (InFrame.parsed "hello" none) = ⟨[], [], true⟩ :=
  (malformed_and_unknown_frames [] 0 (fun _ => false)).2 "hello" none (Or.inr rfl)

/-- C5: for an accepted fix the broadcast calls are, in order: the
`location_update` first, then the geofence loop's output, which is a
`filterMap` over the device's geofences in declaration order producing at
most one `geofence_event` (enter or exit, for that very geofence) each. -/
theorem broadcast_order (device : Device) (req : LocationReq) (now : Nat) (cs : List ℝ)
    (h : req.coordinates = some cs) (h2 : cs.length = 2) :
    (postLocation device req now true true).broadcasts
      = WsOut.locationUpdate device.deviceId cs req.altitude req.speed req.accuracy now
        :: device.geofences.filterMap
            (eventFor { device with lastLocation := some ⟨(cs.getD 0 0, cs.getD 1 0), now⟩ }
              (cs.getD 0 0, cs.getD 1 0))
    ∧ ∀ g m,
        eventFor { device with lastLocation := some ⟨(cs.getD 0 0, cs.getD 1 0), now⟩ }
            (cs.getD 0 0, cs.getD 1 0) g = some m
          → m = WsOut.geofenceEvent device.deviceId "enter" g
            ∨ m = WsOut.geofenceEvent device.deviceId "exit" g := by
  constructor
  · cases hg : device.geofences with
    | nil => simp [postLocation, h, h2, geofenceEvents, hg]
    | cons g t => simp [postLocation, h, h2, geofenceEvents, hg]
  · intro g m hm
    simp only [eventFor] at hm
    split at hm
    · exact Or.inl (Option.some.inj hm).symm
    · split at hm
      · exact Or.inr (Option.some.inj hm).symm
      · exact absurd hm (by simp)

theorem broadcast_order_witness :
    (postLocation devW reqW 0 true true).broadcasts
      = WsOut.locationUpdate devW.deviceId [1, 2] reqW.altitude reqW.speed reqW.accuracy 0
        :: devW.geofences.filterMap
            (eventFor
              { devW with
                  lastLocation :=
                    some ⟨(([1, 2] : List ℝ).getD 0 0, ([1, 2] : List ℝ).getD 1 0), 0⟩ }
              (([1, 2] : List ℝ).getD 0 0, ([1, 2] : List ℝ).getD 1 0)) :=
  (broadcast_order devW reqW 0 [1, 2] rfl rfl).1

/-- C6: a second subscribe for the same device id silently overwrites the
registry entry, and any subsequent location broadcast for that id can only
be delivered to the second connection, never the first. -/
theorem subscribe_overwrite (r : Registry) (d : String) (c1 c2 : Conn) (rs : Conn → Nat)
    (cs : List ℝ) (alt sp acc : Option ℝ) (ts : Nat) (h : c1 ≠ c2) :
    mapGet (mapSet (mapSet r d c1) d c2) d = some c2
    ∧ ∀ conn msg,
        broadcastLocation (mapSet (mapSet r d c1) d c2) rs d cs alt sp acc ts
            = some (conn, msg)
          → conn = c2 ∧ conn ≠ c1 := by
  have hg := mapGet_mapSet_self (mapSet r d c1) d c2
  refine ⟨hg, ?_⟩
  intro conn msg hb
  simp only [broadcastLocation, hg] at hb
  split at hb
  · have := (Prod.mk.injEq _ _ _ _).mp (Option.some.inj hb)
    exact ⟨this.1.symm, by rw [← this.1]; exact fun hx => h hx.symm⟩
  · exact absurd hb (by simp)

theorem subscribe_overwrite_witness :
    mapGet (mapSet (mapSet [] "a" 1) "a" 2) "a" = some 2
    ∧ ∀ conn msg,
        broadcastLocation (mapSet (mapSet [] "a" 1) "a" 2) (fun _ => 1) "a" [] none none none 0
            = some (conn, msg)
          → conn = 2 ∧ conn ≠ 1 :=
  subscribe_overwrite [] "a" 1 2 (fun _ => 1) [] none none none 0 (by decide)

/-- C7: the close handler removes every registry entry whose stored handle
is the closed connection; with the unique keys a JS `Map` guarantees, a
broadcast (location or geofence) to a device-id that mapped to that
connection afterwards silently returns nothing; and running the cleanup
twice equals running it once. -/
theorem close_cleanup (r : Registry) (ws : Conn) (rs : Conn → Nat)
    (hnd : (r.map Prod.fst).Nodup) :
    (∀ e ∈ mapDeleteConn r ws, e.2 ≠ ws)
    ∧ (∀ d, mapGet r d = some ws →
        (∀ cs alt sp acc ts,
            broadcastLocation (mapDeleteConn r ws) rs d cs alt sp acc ts = none)
        ∧ ∀ et g, broadcastGeofenceEvent (mapDeleteConn r ws) rs d et g = none)
    ∧ mapDeleteConn (mapDeleteConn r ws) ws = mapDeleteConn r ws := by
  refine ⟨?_, ?_, mapDeleteConn_idem r ws⟩
  · intro e he
    exact ((mem_mapDeleteConn_iff r ws e).mp he).2
  · intro d hd
    have hn := mapGet_mapDeleteConn_eq_none r ws d hnd hd
    constructor
    · intro cs alt sp acc ts
      simp [broadcastLocation, hn]
    · intro et g
      simp [broadcastGeofenceEvent, hn]

theorem close_cleanup_witness :
    (∀ e ∈ mapDeleteConn [("a", 5), ("b", 7)] 5, e.2 ≠ 5)
    ∧ (∀ d, mapGet [("a", 5), ("b", 7)] d = some 5 →
        (∀ cs alt sp acc ts,
            broadcastLocation (mapDeleteConn [("a", 5), ("b", 7)] 5) (fun _ => 1) d
              cs alt sp acc ts = none)
        ∧ ∀ et g,
            broadcastGeofenceEvent (mapDeleteConn [("a", 5), ("b", 7)] 5) (fun _ => 1) d
              et g = none)
    ∧ mapDeleteConn (mapDeleteConn [("a", 5), ("b", 7)] 5) 5
        = mapDeleteConn [("a", 5), ("b", 7)] 5 :=
  close_cleanup [("a", 5), ("b", 7)] 5 (fun _ => 1) (by simp)

/-- C8: if the device's last-location write fails, the route aborts: the
saved device is not produced, nothing at all is broadcast (no
`location_update`, no geofence event), and the failure is surfaced to the
caller through the error middleware. -/
theorem device_save_failure_aborts (device : Device) (req : LocationReq) (now : Nat)
    (cs : List ℝ) (h : req.coordinates = some cs) (h2 : cs.length = 2) :
    (postLocation device req now true false).broadcasts = []
    ∧ (postLocation device req now true false).savedDevice = none
    ∧ (postLocation device req now true false).error = some PipeError.deviceSaveFailed := by
  simp [postLocation, h, h2]

theorem device_save_failure_aborts_witness :
    (postLocation devW reqW 0 true false).broadcasts = []
    ∧ (postLocation devW reqW 0 true false).savedDevice = none
    ∧ (postLocation devW reqW 0 true false).error = some PipeError.deviceSaveFailed :=
  device_save_failure_aborts devW reqW 0 [1, 2] rfl rfl

/-- C9: `calculateDistance` is symmetric in its two points, and the distance
from any point to itself is zero. -/
theorem distance_symm_self (A B : ℝ × ℝ) :
    calculateDistance A B = calculateDistance B A ∧ calculateDistance A A = 0 :=
  ⟨calculateDistance_comm A B, calculateDistance_self A⟩

/-- C10: closing a connection only touches the registry entries holding that
very connection: every entry with a different connection survives, nothing
new appears, and a device-id mapped to a different connection still looks up
to exactly that connection afterwards. -/
theorem close_frame_effect (r : Registry) (ws : Conn) :
    (∀ e ∈ r, e.2 ≠ ws → e ∈ mapDeleteConn r ws)
    ∧ (∀ e ∈ mapDeleteConn r ws, e ∈ r ∧ e.2 ≠ ws)
    ∧ (∀ d c, c ≠ ws → mapGet r d = some c → mapGet (mapDeleteConn r ws) d = some c) := by
  refine ⟨?_, ?_, ?_⟩
  · intro e he h2
    exact (mem_mapDeleteConn_iff r ws e).mpr ⟨he, h2⟩
  · intro e he
    exact (mem_mapDeleteConn_iff r ws e).mp he
  · intro d c hc hg
    exact mapGet_mapDeleteConn_of_ne r ws d c hc hg

theorem close_frame_effect_witness :
    mapGet (mapDeleteConn [("a", 1), ("b", 2)] 2) "a" = some 1 :=
  (close_frame_effect [("a", 1), ("b", 2)] 2).2.2 "a" 1 (by decide) (by decide)

end LocationTracker
